import Mathlib

/-!
Shallow embedding of the signal-aggregation and alerting core of the
slouch-detector repository (src/index.js).

Times and y-coordinates are modelled as rationals.  The per-keypoint
histories (`keypointsData` in index.js, an object keyed 0..4) become a
function `Fin 5 → List Observation`; a detected pose's keypoint array is
modelled as `Nat → Option Keypoint` (array access `keypoints[point]`
yields `undefined`, i.e. `none`, when the index is absent).  The beep
side effect is reified as an `Option Beep` result of `updateGraph`.
-/

namespace SlouchDetector

/-- `DATA_RETENTION_WINDOW = 5000`: 5 seconds in ms (index.js line 31). -/
def DATA_RETENTION_WINDOW : ℚ := 5000

/-- One entry of `keypointsData[point]`: `{ time: currentTime, y: keypoints[point].y }`. -/
structure Observation where
  time : ℚ
  y : ℚ
deriving DecidableEq, Repr

/-- A detected keypoint `{x, y, score}` as delivered by the pose source. -/
structure Keypoint where
  x : ℚ
  y : ℚ
  score : ℚ
deriving DecidableEq, Repr

/-- A detected pose: its keypoint array, index access returning `none`
for an absent slot (JS `keypoints[point]` being `undefined`). -/
structure Pose where
  keypoints : Nat → Option Keypoint

/-- The five tracked histories, `keypointsData` in index.js. -/
abbrev KeypointsData := Fin 5 → List Observation

/-- The reified `beep(vol, freq, duration)` side effect (index.js line 61). -/
structure Beep where
  vol : ℚ
  freq : ℚ
  duration : ℚ
deriving DecidableEq, Repr

/-- The module-level mutable state of index.js that the aggregator core
reads and writes: `keypointsData`, `threshold`, `alertEnabled`,
`lastBeepTime`, and the chart dataset written by `drawGraph`. -/
structure AggState where
  keypointsData : KeypointsData
  threshold : ℚ
  alertEnabled : Bool
  lastBeepTime : ℚ
  chartData : List ℚ

/-- Startup state: empty histories, `threshold = 300`,
`alertEnabled = false`, `lastBeepTime = 0`, empty chart dataset. -/
def initState : AggState :=
  { keypointsData := fun _ => []
    threshold := 300
    alertEnabled := false
    lastBeepTime := 0
    chartData := [] }

/-- Body of the `forEach` in `updateKeypointsData` for one tracked index:
`if (keypoints[point]) { push({time, y}); filter(age < window) }`. -/
def ingestPoint (currentTime : ℚ) (kps : Nat → Option Keypoint) (p : Fin 5)
    (l : List Observation) : List Observation :=
  match kps p.val with
  | some kp =>
      (l ++ [({ time := currentTime, y := kp.y } : Observation)]).filter
        (fun d => decide (currentTime - d.time < DATA_RETENTION_WINDOW))
  | none => l

/-- `updateKeypointsData(poses)` (index.js lines 76-91), restricted to its
effect on the histories: when at least one pose was detected, each tracked
index 0..4 present in the first pose gets `{time, y}` appended and that
history filtered to the retention window; otherwise nothing happens. -/
def updateKeypointsData (poses : List Pose) (currentTime : ℚ)
    (kd : KeypointsData) : KeypointsData :=
  match poses with
  | [] => kd
  | pose :: _ => fun p => ingestPoint currentTime pose.keypoints p (kd p)

/-- The re-filter in `updateGraph`:
`keypointsData[point].filter(d => currentTime - d.time < DATA_RETENTION_WINDOW)`. -/
def windowFilter (currentTime : ℚ) (l : List Observation) : List Observation :=
  l.filter (fun d => decide (currentTime - d.time < DATA_RETENTION_WINDOW))

/-- `filteredData.reduce((acc, d) => acc + d.y, 0)`. -/
def sumY (l : List Observation) : ℚ :=
  l.foldl (fun acc d => acc + d.y) 0

/-- One element of `graphData`: filter to the retention window, then
`filteredData.length === 0 ? 0 : reduce(...)/length`. -/
def avgY (currentTime : ℚ) (l : List Observation) : ℚ :=
  let filteredData := windowFilter currentTime l
  if filteredData.length = 0 then 0 else sumY filteredData / (filteredData.length : ℚ)

/-- `graphData = [0,1,2,3,4].map(point => ...)` (index.js lines 348-356). -/
def graphSeries (currentTime : ℚ) (kd : KeypointsData) : List ℚ :=
  (List.finRange 5).map (fun p => avgY currentTime (kd p))

/-- `dataLast1Sec`: every `entry.y` over all five histories with
`currentTime - entry.time < 1000`, pooled in index order (lines 363-370). -/
def dataLast1Sec (currentTime : ℚ) (kd : KeypointsData) : List ℚ :=
  (List.finRange 5).flatMap
    (fun p => ((kd p).filter (fun e => decide (currentTime - e.time < 1000))).map Observation.y)

/-- `avgLast1Sec = dataLast1Sec.reduce((a, b) => a + b, 0) / dataLast1Sec.length`. -/
def avgLast1Sec (currentTime : ℚ) (kd : KeypointsData) : ℚ :=
  (dataLast1Sec currentTime kd).foldl (fun a b => a + b) 0
    / ((dataLast1Sec currentTime kd).length : ℚ)

/-- `updateGraph()` (index.js lines 344-382): recompute the chart series,
hand it to `drawGraph` (modelled as writing `chartData`), then the alert
check: if the pooled 1-second data is non-empty, the alert is enabled, the
pooled average exceeds the threshold and more than 1000 ms passed since
`lastBeepTime`, emit `beep(0.2, 440, 300)` and set `lastBeepTime`. -/
def updateGraph (currentTime : ℚ) (s : AggState) : AggState × Option Beep :=
  let s1 : AggState := { s with chartData := graphSeries currentTime s.keypointsData }
  if 0 < (dataLast1Sec currentTime s.keypointsData).length then
    if s.alertEnabled ∧ avgLast1Sec currentTime s.keypointsData > s.threshold then
      if currentTime - s.lastBeepTime > 1000 then
        ({ s1 with lastBeepTime := currentTime },
          some { vol := 0.2, freq := 440, duration := 300 })
      else (s1, none)
    else (s1, none)
  else (s1, none)

/-- One render-loop tick as the spec's `ingest` + `evaluate` pair, together
with the threshold/alert-toggle values the UI handlers may have written
since the previous tick. -/
structure TickInput where
  poses : List Pose
  time : ℚ
  threshold : ℚ
  alertEnabled : Bool

/-- Apply the UI writes, then `updateKeypointsData` (which ends by calling
`updateGraph`), at a single tick time. -/
def applyTick (inp : TickInput) (s : AggState) : AggState × Option Beep :=
  updateGraph inp.time
    { s with
      threshold := inp.threshold
      alertEnabled := inp.alertEnabled
      keypointsData := updateKeypointsData inp.poses inp.time s.keypointsData }

/-- Run a sequence of ticks, collecting the times at which a beep fired. -/
def run : List TickInput → AggState → AggState × List ℚ
  | [], s => (s, [])
  | inp :: rest, s =>
      let p := applyTick inp s
      let q := run rest p.1
      (q.1, (if p.2.isSome then [inp.time] else []) ++ q.2)

/-- The beep times of a tick sequence started from the startup state. -/
def beepTimes (inputs : List TickInput) : List ℚ :=
  (run inputs initState).2

/-! ### Basic lemmas about the embedded operations -/

lemma foldl_add_eq_sum (l : List ℚ) : l.foldl (fun a b => a + b) 0 = l.sum := by
  rw [List.sum_eq_foldl]

lemma sumY_eq (l : List Observation) : sumY l = (l.map Observation.y).sum := by
  unfold sumY
  rw [← foldl_add_eq_sum, ← List.foldl_map]

lemma updateGraph_keypointsData (t : ℚ) (s : AggState) :
    (updateGraph t s).1.keypointsData = s.keypointsData := by
  simp only [updateGraph]
  split_ifs <;> rfl

lemma updateGraph_threshold (t : ℚ) (s : AggState) :
    (updateGraph t s).1.threshold = s.threshold := by
  simp only [updateGraph]
  split_ifs <;> rfl

lemma updateGraph_alertEnabled (t : ℚ) (s : AggState) :
    (updateGraph t s).1.alertEnabled = s.alertEnabled := by
  simp only [updateGraph]
  split_ifs <;> rfl

lemma updateGraph_chartData (t : ℚ) (s : AggState) :
    (updateGraph t s).1.chartData = graphSeries t s.keypointsData := by
  simp only [updateGraph]
  split_ifs <;> rfl

/-- Either no beep fires (and `lastBeepTime` is untouched), or the beep
`beep(0.2, 440, 300)` fires, `lastBeepTime` becomes the current time, and
all four firing conditions held. -/
lemma updateGraph_beep_cases (t : ℚ) (s : AggState) :
    ((updateGraph t s).2 = none ∧ (updateGraph t s).1.lastBeepTime = s.lastBeepTime) ∨
    ((updateGraph t s).2 = some { vol := 0.2, freq := 440, duration := 300 } ∧
      (updateGraph t s).1.lastBeepTime = t ∧ t - s.lastBeepTime > 1000 ∧
      s.alertEnabled = true ∧ avgLast1Sec t s.keypointsData > s.threshold ∧
      0 < (dataLast1Sec t s.keypointsData).length) := by
  simp only [updateGraph]
  split_ifs with h1 h2 h3
  · exact Or.inr ⟨rfl, rfl, h3, h2.1, h2.2, h1⟩
  · exact Or.inl ⟨rfl, rfl⟩
  · exact Or.inl ⟨rfl, rfl⟩
  · exact Or.inl ⟨rfl, rfl⟩

/-! ### Concrete data used in counterexamples and witnesses -/

/-- A history whose single entry is 5000 ms old at time 6000. -/
def c1kd : KeypointsData := fun _ => [{ time := 0, y := 100 }]

/-- A pose whose keypoint 0 is present (y = 7) and all others absent. -/
def c1pose : Pose :=
  { keypoints := fun i => if i = 0 then some { x := 0, y := 7, score := 1 } else none }

/-! ### C1: pruning is NOT unconditional -/

/-- C1 (counterexample): with zero poses detected, `updateKeypointsData`
does not prune.  Starting from the startup state, ingest `c1pose` at time
0 and then an empty detection result at time 6000: the 6000 ms old entry
of keypoint 0 survives the second update, so not every retained entry
satisfies `currentTime - entry.time < 5000`. -/
theorem C1_counterexample :
    ¬ (∀ p : Fin 5, ∀ o ∈ updateKeypointsData [] 6000
        (updateKeypointsData [c1pose] 0 initState.keypointsData) p,
        6000 - o.time < DATA_RETENTION_WINDOW) := by
  intro h
  have h0 := h 0 { time := 0, y := 7 } ?_
  · norm_num [DATA_RETENTION_WINDOW] at h0
  · norm_num [updateKeypointsData, ingestPoint, initState, c1pose, List.filter,
      DATA_RETENTION_WINDOW]

/-- C1 (amended): pruning happens exactly for the tracked keypoints present
in the first pose of a non-empty pose list.  For such a keypoint every
entry of its updated history satisfies
`currentTime - entry.time < DATA_RETENTION_WINDOW`; a keypoint absent from
the first pose keeps its history untouched, and with zero poses detected
the whole state is untouched (no pruning at all). -/
theorem C1_amended (pose : Pose) (rest : List Pose) (t : ℚ) (kd : KeypointsData)
    (p : Fin 5) :
    (∀ kp, pose.keypoints p.val = some kp →
      ∀ o ∈ updateKeypointsData (pose :: rest) t kd p,
        t - o.time < DATA_RETENTION_WINDOW) ∧
    (pose.keypoints p.val = none →
      updateKeypointsData (pose :: rest) t kd p = kd p) ∧
    updateKeypointsData [] t kd = kd := by
  refine ⟨?_, ?_, rfl⟩
  · intro kp hkp o ho
    simp only [updateKeypointsData, ingestPoint, hkp] at ho
    rw [List.mem_filter] at ho
    simpa using ho.2
  · intro hnone
    simp [updateKeypointsData, ingestPoint, hnone]

/-- C1 (witness): at time 6000, ingesting `c1pose` prunes keypoint 0's
history (keypoint 0 is present), while an empty detection leaves the stale
state untouched. -/
theorem C1_amended_witness :
    (∀ o ∈ updateKeypointsData [c1pose] 6000 c1kd 0,
      6000 - o.time < DATA_RETENTION_WINDOW) ∧
    updateKeypointsData [] 6000 c1kd = c1kd :=
  ⟨(C1_amended c1pose [] 6000 c1kd 0).1 { x := 0, y := 7, score := 1 } rfl,
    (C1_amended c1pose [] 6000 c1kd 0).2.2⟩

/-! ### C2: the alert condition is a strict 1000 ms debounce with
`lastBeepTime` initialised to 0 -/

/-- A pose whose keypoint 0 is present at y = 400 and all others absent. -/
def pose400 : Pose :=
  { keypoints := fun i => if i = 0 then some { x := 0, y := 400, score := 1 } else none }

/-- The state just before `updateGraph` on a tick at time 500 that ingested
`pose400` into the startup state, with threshold 300 and alerts enabled.
No alert has ever fired (`lastBeepTime` is still its initial value 0). -/
def c2pre : AggState :=
  { initState with
    threshold := 300
    alertEnabled := true
    keypointsData := updateKeypointsData [pose400] 500 initState.keypointsData }

lemma c2pre_kd_eval :
    c2pre.keypointsData = fun p : Fin 5 =>
      if p = 0 then [{ time := 500, y := 400 }] else [] := by
  funext p
  fin_cases p <;>
    norm_num [c2pre, initState, updateKeypointsData, ingestPoint, pose400, List.filter,
      DATA_RETENTION_WINDOW, Fin.ext_iff]

lemma c2pre_data_eval : dataLast1Sec 500 c2pre.keypointsData = [400] := by
  rw [c2pre_kd_eval]
  norm_num [dataLast1Sec, List.finRange, List.filter]

/-- C2 (counterexample): at time 500 in state `c2pre` every antecedent of
the claim holds — alerts enabled, pooled 1-second data non-empty with mean
400 > 300 = threshold, and no alert has ever fired (`lastBeepTime = 0`,
its initial value) — yet no beep is emitted and `lastBeepTime` stays 0,
because the code requires `currentTime - lastBeepTime > 1000` and
`500 - 0 > 1000` fails. -/
theorem C2_counterexample :
    c2pre.alertEnabled = true ∧ c2pre.lastBeepTime = 0 ∧
    dataLast1Sec 500 c2pre.keypointsData = [400] ∧
    avgLast1Sec 500 c2pre.keypointsData = 400 ∧ c2pre.threshold = 300 ∧
    (updateGraph 500 c2pre).2 = none ∧
    (updateGraph 500 c2pre).1.lastBeepTime = 0 := by
  have hd := c2pre_data_eval
  have havg : avgLast1Sec 500 c2pre.keypointsData = 400 := by
    rw [avgLast1Sec, hd]; norm_num
  refine ⟨rfl, rfl, hd, havg, rfl, ?_, ?_⟩ <;>
  · simp only [updateGraph, hd, havg]
    norm_num [c2pre, initState]

/-- C2 (amended): on an evaluate tick, the beep `beep(0.2, 440, 300)` fires
iff the pooled 1-second data is non-empty, alerts are enabled, its mean
exceeds the threshold, and strictly more than 1000 ms have passed since
`lastBeepTime` (which starts at 0, so "never fired" does not bypass the
spacing check); when it fires `lastBeepTime` becomes the current time,
otherwise `lastBeepTime` is unchanged and no alert fires. -/
theorem C2_amended (t : ℚ) (s : AggState) :
    ((updateGraph t s).2 = some { vol := 0.2, freq := 440, duration := 300 } ↔
      (0 < (dataLast1Sec t s.keypointsData).length ∧ s.alertEnabled = true ∧
        avgLast1Sec t s.keypointsData > s.threshold ∧ t - s.lastBeepTime > 1000)) ∧
    ((updateGraph t s).2 = none → (updateGraph t s).1.lastBeepTime = s.lastBeepTime) ∧
    ((updateGraph t s).2 ≠ none → (updateGraph t s).1.lastBeepTime = t) := by
  simp only [updateGraph]
  split_ifs with h1 h2 h3
  · exact ⟨by simp [h1, h2.1, h2.2, h3], fun h => by simp at h, fun _ => rfl⟩
  · exact ⟨⟨fun h => by simp at h, fun h => absurd h.2.2.2 h3⟩,
      fun _ => rfl, fun h => absurd rfl h⟩
  · exact ⟨⟨fun h => by simp at h, fun h => absurd ⟨h.2.1, h.2.2.1⟩ h2⟩,
      fun _ => rfl, fun h => absurd rfl h⟩
  · exact ⟨⟨fun h => by simp at h, fun h => absurd h.1 h1⟩,
      fun _ => rfl, fun h => absurd rfl h⟩

/-- C2 (witness): at time 1200 from state `c2pre` all four firing
conditions hold (`1200 - 0 > 1000`), and the amended theorem yields the
beep. -/
theorem C2_amended_witness :
    (updateGraph 1200 c2pre).2 = some { vol := 0.2, freq := 440, duration := 300 } := by
  have hd : dataLast1Sec 1200 c2pre.keypointsData = [400] := by
    rw [c2pre_kd_eval]
    norm_num [dataLast1Sec, List.finRange, List.filter]
  refine (C2_amended 1200 c2pre).1.mpr ⟨by rw [hd]; norm_num, rfl, ?_, ?_⟩
  · rw [avgLast1Sec, hd]
    norm_num [c2pre, initState]
  · norm_num [c2pre, initState]

/-! ### C3: the t=0 / t=500 scenario fires no alert at all -/

/-- One scenario tick: ingest keypoint 0 at y = 400 at the given time,
with threshold 300 and alerts enabled. -/
def c3tick (t : ℚ) : TickInput :=
  { poses := [pose400], time := t, threshold := 300, alertEnabled := true }

lemma c3run_early : beepTimes [c3tick 0, c3tick 500] = [] := by
  norm_num [beepTimes, run, applyTick, updateGraph, updateKeypointsData, ingestPoint,
    dataLast1Sec, avgLast1Sec, graphSeries, avgY, windowFilter, sumY, pose400, initState,
    c3tick, List.finRange, List.filter, DATA_RETENTION_WINDOW, Fin.ext_iff]

lemma c3run_later : beepTimes [c3tick 2000, c3tick 2500] = [2000] := by
  norm_num [beepTimes, run, applyTick, updateGraph, updateKeypointsData, ingestPoint,
    dataLast1Sec, avgLast1Sec, graphSeries, avgY, windowFilter, sumY, pose400, initState,
    c3tick, List.finRange, List.filter, DATA_RETENTION_WINDOW, Fin.ext_iff]

/-- C3 (counterexample): in the spec's scenario — keypoint 0 ingested at
y = 400 at times 0 and 500 ms, threshold 300, alerts enabled, evaluate run
after each ingest — the pooled 1-second average is indeed 400 > 300, but
the alert fires zero times, not once: the debounce
`currentTime - lastBeepTime > 1000` fails at both ticks because
`lastBeepTime` starts at 0. -/
theorem C3_counterexample :
    avgLast1Sec 0 (updateKeypointsData [pose400] 0 initState.keypointsData) = 400 ∧
    (400:ℚ) > 300 ∧
    beepTimes [c3tick 0, c3tick 500] = [] := by
  refine ⟨?_, by norm_num, c3run_early⟩
  norm_num [updateKeypointsData, ingestPoint, dataLast1Sec, avgLast1Sec, pose400,
    initState, List.finRange, List.filter, DATA_RETENTION_WINDOW, Fin.ext_iff]

/-- C3 (amended): in the scenario at t = 0 and t = 500 the alert fires
zero times (the strict debounce against the initial `lastBeepTime = 0`
suppresses it); shifting the same two ticks past the first second, to
t = 2000 and t = 2500, the alert fires exactly once, at the first
evaluate call where the condition holds. -/
theorem C3_amended_theorem :
    beepTimes [c3tick 0, c3tick 500] = [] ∧
    beepTimes [c3tick 2000, c3tick 2500] = [2000] :=
  ⟨c3run_early, c3run_later⟩

/-! ### C4: the chart series is the windowed mean per keypoint, or 0 -/

/-- C4: every evaluate tick writes as chart series the 5-element list, in
keypoint order 0..4, of windowed average y values; each value is 0 when
the keypoint's windowed history is empty and otherwise the arithmetic
mean of its windowed y values, which therefore lies between any lower and
upper bound of those values whenever it is non-zero. -/
theorem C4_theorem (t : ℚ) (s : AggState) :
    (updateGraph t s).1.chartData =
      [avgY t (s.keypointsData 0), avgY t (s.keypointsData 1), avgY t (s.keypointsData 2),
        avgY t (s.keypointsData 3), avgY t (s.keypointsData 4)] ∧
    ∀ p : Fin 5,
      (windowFilter t (s.keypointsData p) = [] → avgY t (s.keypointsData p) = 0) ∧
      (windowFilter t (s.keypointsData p) ≠ [] →
        avgY t (s.keypointsData p) =
          ((windowFilter t (s.keypointsData p)).map Observation.y).sum
            / ((windowFilter t (s.keypointsData p)).length : ℚ)) ∧
      (avgY t (s.keypointsData p) ≠ 0 → ∀ lo hi : ℚ,
        (∀ o ∈ windowFilter t (s.keypointsData p), lo ≤ o.y ∧ o.y ≤ hi) →
        lo ≤ avgY t (s.keypointsData p) ∧ avgY t (s.keypointsData p) ≤ hi) := by
  constructor
  · rw [updateGraph_chartData]
    rfl
  · intro p
    have havg_of_ne : windowFilter t (s.keypointsData p) ≠ [] →
        avgY t (s.keypointsData p) =
          ((windowFilter t (s.keypointsData p)).map Observation.y).sum
            / ((windowFilter t (s.keypointsData p)).length : ℚ) := by
      intro h
      simp only [avgY]
      rw [if_neg (fun h0 => h (List.length_eq_zero.mp h0)), sumY_eq]
    refine ⟨?_, havg_of_ne, ?_⟩
    · intro h
      simp [avgY, h]
    · intro hne lo hi hbound
      have hnil : windowFilter t (s.keypointsData p) ≠ [] := by
        intro h0
        apply hne
        simp [avgY, h0]
      have hlen0 : (windowFilter t (s.keypointsData p)).length ≠ 0 :=
        fun h0 => hnil (List.length_eq_zero.mp h0)
      have hlen : (0:ℚ) < ((windowFilter t (s.keypointsData p)).length : ℚ) := by
        exact_mod_cast Nat.pos_of_ne_zero hlen0
      have havg := havg_of_ne hnil
      have hup : ((windowFilter t (s.keypointsData p)).map Observation.y).sum ≤
          ((windowFilter t (s.keypointsData p)).length : ℚ) * hi := by
        have hb : ∀ x ∈ (windowFilter t (s.keypointsData p)).map Observation.y, x ≤ hi := by
          intro x hx
          rw [List.mem_map] at hx
          obtain ⟨o, ho, rfl⟩ := hx
          exact (hbound o ho).2
        have := List.sum_le_card_nsmul ((windowFilter t (s.keypointsData p)).map Observation.y) hi hb
        simpa [nsmul_eq_mul] using this
      have hdown : ((windowFilter t (s.keypointsData p)).length : ℚ) * lo ≤
          ((windowFilter t (s.keypointsData p)).map Observation.y).sum := by
        have hb : ∀ x ∈ (windowFilter t (s.keypointsData p)).map Observation.y, lo ≤ x := by
          intro x hx
          rw [List.mem_map] at hx
          obtain ⟨o, ho, rfl⟩ := hx
          exact (hbound o ho).1
        have := List.card_nsmul_le_sum ((windowFilter t (s.keypointsData p)).map Observation.y) lo hb
        simpa [nsmul_eq_mul] using this
      constructor
      · rw [havg, le_div_iff₀ hlen, mul_comm]
        exact hdown
      · rw [havg, div_le_iff₀ hlen, mul_comm]
        exact hup

/-- A state whose keypoint 0 history holds y = 100 at time 0 and y = 200
at time 50. -/
def c4state : AggState :=
  { initState with
    keypointsData := fun p =>
      if p = 0 then [{ time := 0, y := 100 }, { time := 50, y := 200 }] else [] }

/-- C4 (witness): at time 100 keypoint 0's windowed average in `c4state`
is non-zero and bounded by the extreme observed y values 100 and 200. -/
theorem C4_witness :
    (100:ℚ) ≤ avgY 100 (c4state.keypointsData 0) ∧ avgY 100 (c4state.keypointsData 0) ≤ 200 := by
  refine ((C4_theorem 100 c4state).2 0).2.2 ?_ 100 200 ?_
  · norm_num [c4state, initState, avgY, windowFilter, sumY, List.filter,
      DATA_RETENTION_WINDOW, Fin.ext_iff]
  · intro o ho
    norm_num [c4state, initState, windowFilter, List.filter, DATA_RETENTION_WINDOW] at ho
    rcases ho with h | h <;> rw [h] <;> norm_num

/-! ### C5: beeps are always spaced more than 1000 ms apart -/

lemma applyTick_beep_cases (inp : TickInput) (s : AggState) :
    ((applyTick inp s).2 = none ∧ (applyTick inp s).1.lastBeepTime = s.lastBeepTime) ∨
    ((applyTick inp s).2.isSome = true ∧ (applyTick inp s).1.lastBeepTime = inp.time ∧
      inp.time - s.lastBeepTime > 1000) := by
  have h := updateGraph_beep_cases inp.time
    { keypointsData := updateKeypointsData inp.poses inp.time s.keypointsData
      threshold := inp.threshold
      alertEnabled := inp.alertEnabled
      lastBeepTime := s.lastBeepTime
      chartData := s.chartData }
  simp only [applyTick]
  rcases h with ⟨h1, h2⟩ | ⟨h1, h2, h3, _⟩
  · exact Or.inl ⟨h1, h2⟩
  · exact Or.inr ⟨by rw [h1]; rfl, h2, h3⟩

/-- Every beep time of a run is more than 1000 ms after the starting
`lastBeepTime`, and consecutive recorded beeps are more than 1000 ms
apart, pairwise. -/
lemma run_beeps_spaced (inputs : List TickInput) (s : AggState) :
    (∀ x ∈ (run inputs s).2, s.lastBeepTime + 1000 < x) ∧
    ((run inputs s).2).Pairwise (fun a b => b - a > 1000) := by
  induction inputs generalizing s with
  | nil => simp [run]
  | cons inp rest ih =>
    simp only [run]
    rcases applyTick_beep_cases inp s with ⟨h1, h2⟩ | ⟨h1, h2, h3⟩
    · simp only [h1, Option.isSome_none, Bool.false_eq_true, if_false, List.nil_append]
      have ih' := ih (applyTick inp s).1
      rw [h2] at ih'
      exact ih'
    · simp only [h1, if_true, List.singleton_append]
      have ih' := ih (applyTick inp s).1
      rw [h2] at ih'
      constructor
      · intro x hx
        rcases List.mem_cons.mp hx with rfl | hx'
        · linarith
        · have := ih'.1 x hx'
          linarith
      · refine List.Pairwise.cons ?_ ih'.2
        intro b hb
        have := ih'.1 b hb
        linarith

/-- C5: over any sequence of ingest/evaluate ticks with arbitrary
threshold and alert-toggle settings, any two recorded beep times differ by
more than 1000 ms: the alert fires at most once per 1000 ms. -/
theorem C5_theorem (inputs : List TickInput) :
    (beepTimes inputs).Pairwise (fun a b => b - a > 1000) :=
  (run_beeps_spaced inputs initState).2

/-- C5 (witness): the spacing holds on the concrete two-tick trace whose
first tick beeps. -/
theorem C5_witness :
    (beepTimes [c3tick 2000, c3tick 2500]).Pairwise (fun a b => b - a > 1000) :=
  C5_theorem [c3tick 2000, c3tick 2500]

/-! ### C6: no alert when `alertEnabled` is false -/

/-- C6: whatever the histories, threshold and times, an evaluate tick with
`alertEnabled = false` emits no beep and leaves `lastBeepTime` unchanged. -/
theorem C6_theorem (t : ℚ) (s : AggState) (h : s.alertEnabled = false) :
    (updateGraph t s).2 = none ∧ (updateGraph t s).1.lastBeepTime = s.lastBeepTime := by
  rcases updateGraph_beep_cases t s with ⟨h1, h2⟩ | ⟨_, _, _, he, _⟩
  · exact ⟨h1, h2⟩
  · rw [h] at he
    exact absurd he (by simp)

/-- C6 (witness): the startup state has alerts disabled, and an evaluate
tick on it beeps nothing. -/
theorem C6_witness :
    (updateGraph 0 initState).2 = none ∧
    (updateGraph 0 initState).1.lastBeepTime = initState.lastBeepTime :=
  C6_theorem 0 initState rfl

/-! ### C7: empty history degrades to a zero chart and no alert -/

/-- C7: with every tracked history empty the evaluate tick produces the
chart series `[0, 0, 0, 0, 0]`; and whenever the pooled 1-second data is
empty, no alert evaluation occurs (no beep, `lastBeepTime` untouched) —
the operation is total, no error state exists. -/
theorem C7_theorem (t : ℚ) (s : AggState) :
    ((∀ p : Fin 5, s.keypointsData p = []) →
      (updateGraph t s).1.chartData = [0, 0, 0, 0, 0]) ∧
    (dataLast1Sec t s.keypointsData = [] →
      (updateGraph t s).2 = none ∧ (updateGraph t s).1.lastBeepTime = s.lastBeepTime) := by
  constructor
  · intro h
    rw [updateGraph_chartData]
    simp [graphSeries, List.finRange, avgY, windowFilter, h]
  · intro h
    rcases updateGraph_beep_cases t s with ⟨h1, h2⟩ | ⟨_, _, _, _, _, hlen⟩
    · exact ⟨h1, h2⟩
    · rw [h] at hlen
      simp at hlen

/-- C7 (witness): evaluating the untouched startup state yields the zero
chart series and no beep. -/
theorem C7_witness :
    (updateGraph 0 initState).1.chartData = [0, 0, 0, 0, 0] ∧
    (updateGraph 0 initState).2 = none := by
  have h := C7_theorem 0 initState
  exact ⟨h.1 (fun p => rfl), (h.2 rfl).1⟩

/-! ### C8: ingestion reads only `keypoints[0..4].y` of the first pose -/

/-- C8: `updateKeypointsData` depends only on the y values of keypoint
indices 0..4 of the first detected pose: pose lists whose first poses agree
there produce identical histories (so keypoints at other indices, other
fields, and later poses never influence the state); a tracked keypoint
absent from the result gets no new observation, and a present one gets
exactly the single observation `{time := currentTime, y := keypoint.y}`
appended before the window filter. -/
theorem C8_theorem (pose₁ pose₂ : Pose) (rest₁ rest₂ : List Pose) (t : ℚ)
    (kd : KeypointsData)
    (hagree : ∀ i : Fin 5, Option.map Keypoint.y (pose₁.keypoints i.val) =
      Option.map Keypoint.y (pose₂.keypoints i.val)) :
    updateKeypointsData (pose₁ :: rest₁) t kd = updateKeypointsData (pose₂ :: rest₂) t kd ∧
    ∀ p : Fin 5,
      (pose₁.keypoints p.val = none → updateKeypointsData (pose₁ :: rest₁) t kd p = kd p) ∧
      (∀ kp, pose₁.keypoints p.val = some kp →
        updateKeypointsData (pose₁ :: rest₁) t kd p =
          (kd p ++ [({ time := t, y := kp.y } : Observation)]).filter
            (fun d => decide (t - d.time < DATA_RETENTION_WINDOW))) := by
  constructor
  · funext p
    have h := hagree p
    simp only [updateKeypointsData, ingestPoint]
    cases h1 : pose₁.keypoints p.val with
    | none =>
      rw [h1] at h
      cases h2 : pose₂.keypoints p.val with
      | none => rfl
      | some kp₂ => rw [h2] at h; simp at h
    | some kp₁ =>
      rw [h1] at h
      cases h2 : pose₂.keypoints p.val with
      | none => rw [h2] at h; simp at h
      | some kp₂ =>
        rw [h2] at h
        simp only [Option.map_some'] at h
        rw [Option.some_inj] at h
        dsimp only
        rw [h]
  · intro p
    constructor
    · intro h
      simp only [updateKeypointsData, ingestPoint, h]
    · intro kp h
      simp only [updateKeypointsData, ingestPoint, h]

/-- First pose of the C8 witness: keypoint 0 present with y = 400 (and
x = 1, score = 1), an untracked keypoint at index 7. -/
def c8poseA : Pose :=
  { keypoints := fun i =>
      if i = 0 then some { x := 1, y := 400, score := 1 }
      else if i = 7 then some { x := 2, y := 999, score := 1 } else none }

/-- Second pose of the C8 witness: same y at keypoint 0 but different x
and score, nothing else present. -/
def c8poseB : Pose :=
  { keypoints := fun i => if i = 0 then some { x := 5, y := 400, score := 0 } else none }

/-- A second detected pose with every index present — it must be ignored. -/
def c8junk : Pose := { keypoints := fun _ => some { x := 0, y := 123, score := 1 } }

/-- C8 (witness): the two pose lists differ in x/score fields, in an
untracked index 7, and in a whole second pose, yet ingesting them into the
same state yields identical histories. -/
theorem C8_witness :
    updateKeypointsData [c8poseA, c8junk] 100 c1kd = updateKeypointsData [c8poseB] 100 c1kd := by
  refine (C8_theorem c8poseA c8poseB [c8junk] [] 100 c1kd ?_).1
  intro i
  fin_cases i <;> rfl

/-! ### C9: evaluate only writes the chart dataset and `lastBeepTime` -/

/-- C9: an evaluate tick never changes the histories, the threshold or the
alert toggle; it writes the chart dataset (to the recomputed series) and,
exactly when a beep fired, `lastBeepTime` (to the current time). -/
theorem C9_theorem (t : ℚ) (s : AggState) :
    (updateGraph t s).1.keypointsData = s.keypointsData ∧
    (updateGraph t s).1.threshold = s.threshold ∧
    (updateGraph t s).1.alertEnabled = s.alertEnabled ∧
    (updateGraph t s).1.chartData = graphSeries t s.keypointsData ∧
    ((updateGraph t s).2 = none → (updateGraph t s).1.lastBeepTime = s.lastBeepTime) ∧
    ((updateGraph t s).2 ≠ none → (updateGraph t s).1.lastBeepTime = t) := by
  refine ⟨updateGraph_keypointsData t s, updateGraph_threshold t s,
    updateGraph_alertEnabled t s, updateGraph_chartData t s, ?_, ?_⟩ <;>
  rcases updateGraph_beep_cases t s with ⟨h1, h2⟩ | ⟨h1, h2, _⟩
  · exact fun _ => h2
  · intro h
    rw [h] at h1
    cases h1
  · exact fun h => absurd h1 h
  · exact fun _ => h2

/-- C9 (witness): on the startup state at time 0 the histories survive the
evaluate tick and `lastBeepTime` stays 0. -/
theorem C9_witness :
    (updateGraph 0 initState).1.keypointsData = initState.keypointsData ∧
    (updateGraph 0 initState).1.lastBeepTime = initState.lastBeepTime := by
  have h := C9_theorem 0 initState
  exact ⟨h.1, h.2.2.2.2.1 rfl⟩

/-! ### C10: evaluate is deterministic in the state it reads -/

/-- C10: two evaluate runs from states with equal histories, threshold,
alert toggle and `lastBeepTime` (chart contents may differ) at the same
current time produce the same chart series, the same alert decision and
the same new `lastBeepTime`. -/
theorem C10_theorem (t : ℚ) (s₁ s₂ : AggState)
    (hk : s₁.keypointsData = s₂.keypointsData) (hth : s₁.threshold = s₂.threshold)
    (ha : s₁.alertEnabled = s₂.alertEnabled) (hl : s₁.lastBeepTime = s₂.lastBeepTime) :
    (updateGraph t s₁).1.chartData = (updateGraph t s₂).1.chartData ∧
    (updateGraph t s₁).2 = (updateGraph t s₂).2 ∧
    (updateGraph t s₁).1.lastBeepTime = (updateGraph t s₂).1.lastBeepTime := by
  obtain ⟨kd₁, th₁, ae₁, lb₁, cd₁⟩ := s₁
  obtain ⟨kd₂, th₂, ae₂, lb₂, cd₂⟩ := s₂
  dsimp only at hk hth ha hl
  subst hk hth ha hl
  simp only [updateGraph]
  exact ⟨trivial, trivial, trivial⟩

/-- C10 (witness): the startup state and the startup state with a junk
chart dataset evaluate to the same alert decision and chart series. -/
theorem C10_witness :
    (updateGraph 0 { initState with chartData := [1, 2, 3] }).1.chartData =
      (updateGraph 0 initState).1.chartData ∧
    (updateGraph 0 { initState with chartData := [1, 2, 3] }).2 =
      (updateGraph 0 initState).2 := by
  have h := C10_theorem 0 { initState with chartData := [1, 2, 3] } initState rfl rfl rfl rfl
  exact ⟨h.1, h.2.1⟩

end SlouchDetector
